import Mathlib

/-!
Verification development for the `ai-web-search-fastapi` repository: a FastAPI
service that answers a query by discovering URLs via a search API
(`oprah.get_news_urls`), fetching the pages concurrently
(`oprah.webscraper` / `oprah.fetch_article`), cleaning the extracted
markdown (`markdown_cleaner.MarkdownCleaner`), indexing the results in an
ephemeral FAISS store, extracting facts under a bounded-concurrency gate and
summarizing (`webthinker.WebThinkerAgent.search`), with a TTL cache on the
top-level entry point (`webthinker.search_web`).

Strings are modelled as `List Char` (`Str`).  Python's `re` module is
modelled by a small backtracking regular-expression engine (`RE`, `reMatch`)
with Python's leftmost / greedy-vs-lazy backtracking priority, capture
groups, word boundaries, `$`, and negative lookahead — enough for every
pattern appearing in `markdown_cleaner.py`.  Every regex of the source is
transcribed node by node.
-/

/-- Python strings are modelled as lists of characters. -/
abbrev Str := List Char

/-- ASCII lower-casing of one character (Python `str.lower` on the ASCII
inputs used in this code base). -/
def lowerChar (c : Char) : Char :=
  if 65 ≤ c.toNat ∧ c.toNat ≤ 90 then Char.ofNat (c.toNat + 32) else c

/-- Python `str.lower` (ASCII fragment). -/
def lowerStr (s : Str) : Str := s.map lowerChar

/-- Python `\w` (ASCII fragment): letters, digits, underscore. -/
def isWordChar (c : Char) : Bool :=
  (48 ≤ c.toNat ∧ c.toNat ≤ 57) ∨ (65 ≤ c.toNat ∧ c.toNat ≤ 90) ∨
  (97 ≤ c.toNat ∧ c.toNat ≤ 122) ∨ c = '_'

/-- Python `\s`: space, tab, newline, carriage return, form feed, vertical tab. -/
def isSpaceChar (c : Char) : Bool :=
  c = ' ' ∨ c = '\t' ∨ c = '\n' ∨ c = '\r' ∨ c.toNat = 11 ∨ c.toNat = 12

/-- Python `\d` (ASCII). -/
def isDigitChar (c : Char) : Bool := 48 ≤ c.toNat ∧ c.toNat ≤ 57

/-- Python `str.strip()` (strip leading and trailing whitespace). -/
def pyStrip (s : Str) : Str :=
  (s.dropWhile isSpaceChar).reverse.dropWhile isSpaceChar |>.reverse

/-- Whether `p` occurs as a contiguous substring of `s` (Python `in`). -/
def strContains (s p : Str) : Bool :=
  match s with
  | [] => decide (p = [])
  | _ :: rest => p.isPrefixOf s || strContains rest p

/-- Worker for `strReplace`; `fuel` bounds the number of characters
scanned (structural recursion so that the kernel can evaluate it). -/
def strReplaceAux (old new : Str) : Nat → Str → Str
  | 0, s => s
  | _ + 1, [] => []
  | fuel + 1, c :: rest =>
    if old ≠ [] ∧ old.isPrefixOf (c :: rest) then
      new ++ strReplaceAux old new fuel ((c :: rest).drop old.length)
    else c :: strReplaceAux old new fuel rest

/-- Python `str.replace old new` for nonempty `old` (every occurrence of
`old` in `s` is replaced by `new`, scanning left to right).  All uses in the
source have nonempty `old`; for empty `old` we return `s` unchanged. -/
def strReplace (s old new : Str) : Str := strReplaceAux old new s.length s

/-- Python `str.split sep` for a one-character separator (no maxsplit). -/
def strSplitChar (sep : Char) (s : Str) : List Str :=
  match s with
  | [] => [[]]
  | c :: rest =>
    let r := strSplitChar sep rest
    if c = sep then [] :: r
    else match r with
      | [] => [[c]]
      | h :: t => (c :: h) :: t

/-- Python `sep.join parts`. -/
def strJoin (sep : Str) (parts : List Str) : Str :=
  match parts with
  | [] => []
  | [p] => p
  | p :: rest => p ++ sep ++ strJoin sep rest

/-- Worker for `strSplitMax`; `fuel` bounds the characters scanned. -/
def strSplitMaxAux (sep : Str) : Nat → Nat → Str → List Str
  | _, 0, s => [s]
  | 0, _, s => [s]
  | _ + 1, _ + 1, [] => [[]]
  | fuel + 1, m + 1, c :: rest =>
    if sep ≠ [] ∧ sep.isPrefixOf (c :: rest) then
      [] :: strSplitMaxAux sep fuel m ((c :: rest).drop sep.length)
    else match strSplitMaxAux sep fuel (m + 1) rest with
      | [] => [[c]]
      | h :: t => (c :: h) :: t

/-- Python `str.split(sep, maxsplit)` for a nonempty separator string:
splits on at most `maxsplit` occurrences of `sep`, left to right. -/
def strSplitMax (sep : Str) (maxsplit : Nat) (s : Str) : List Str :=
  strSplitMaxAux sep (s.length + 1) maxsplit s

/-- Decimal rendering of a natural number (Python f-string of an int). -/
def showNat (n : Nat) : Str := (Nat.toDigits 10 n)

/-! ## A backtracking regular-expression engine (model of Python `re`)

Constructors cover the features used by `markdown_cleaner.py`:
predicates (characters / classes), concatenation, alternation (left
preferred), greedy and lazy star, capture groups, `$` (`eos`), word
boundary (`wb`) and lookahead (`look`).  `reMatch` is a continuation-passing
backtracking matcher with Python's exploration order: alternation tries the
left branch first, a greedy star prefers more iterations, a lazy star
prefers fewer.  Fuel bounds the recursion depth; `reFuel` is generous enough
for every concrete evaluation in this file (fuel exhaustion returns `none`).
-/

inductive RE where
  | eps : RE
  | pred : (Char → Bool) → RE
  | cat : RE → RE → RE
  | alt : RE → RE → RE
  | star : Bool → RE → RE
  | grp : Nat → RE → RE
  | look : Bool → RE → RE
  | eos : RE
  | wb : RE

/-- Structural size of a pattern, used to compute the fuel bound. -/
def reSize : RE → Nat
  | .eps => 1
  | .pred _ => 1
  | .cat a b => reSize a + reSize b + 1
  | .alt a b => reSize a + reSize b + 1
  | .star _ a => reSize a + 1
  | .grp _ a => reSize a + 1
  | .look _ a => reSize a + 1
  | .eos => 1
  | .wb => 1

/-- Capture list: `(group index, start, stop)`, most recent first
(Python keeps the last match of a group). -/
abbrev Caps := List (Nat × Nat × Nat)

def capLookup (caps : Caps) (n : Nat) : Option (Nat × Nat) :=
  match caps with
  | [] => none
  | (m, a, b) :: rest => if m = n then some (a, b) else capLookup rest n

/-- Is position `i` preceded/followed so that it is a `\b` word boundary? -/
def isBoundary (s : Str) (i : Nat) : Bool :=
  let cur := match s.get? i with | some c => isWordChar c | none => false
  let prev := if i = 0 then false
              else match s.get? (i - 1) with | some c => isWordChar c | none => false
  prev != cur

/-- Python `$`: end of string, or just before a final newline. -/
def atEos (s : Str) (i : Nat) : Bool :=
  i = s.length ∨ (i + 1 = s.length ∧ s.get? i = some '\n')

/-- The backtracking matcher.  `reMatch s fuel re i caps k` tries to match
`re` in `s` starting at index `i` and passes the end index and captures of
each candidate match to the continuation `k`, in Python's backtracking
order, returning the first success. -/
def reMatch (s : Str) : Nat → RE → Nat → Caps →
    (Nat → Caps → Option (Nat × Caps)) → Option (Nat × Caps)
  | 0, _, _, _, _ => none
  | fuel + 1, re, i, caps, k =>
    match re with
    | .eps => k i caps
    | .pred p =>
      match s.get? i with
      | some c => if p c then k (i + 1) caps else none
      | none => none
    | .cat r1 r2 => reMatch s fuel r1 i caps (fun j caps2 => reMatch s fuel r2 j caps2 k)
    | .alt r1 r2 =>
      match reMatch s fuel r1 i caps k with
      | some m => some m
      | none => reMatch s fuel r2 i caps k
    | .star greedy r =>
      let more := fun (_ : Unit) =>
        reMatch s fuel r i caps (fun j caps2 =>
          if j = i then none else reMatch s fuel (.star greedy r) j caps2 k)
      if greedy then
        match more () with
        | some m => some m
        | none => k i caps
      else
        match k i caps with
        | some m => some m
        | none => more ()
    | .grp n r => reMatch s fuel r i caps (fun j caps2 => k j ((n, i, j) :: caps2))
    | .look positive r =>
      match reMatch s fuel r i caps (fun j caps2 => some (j, caps2)) with
      | some _ => if positive then k i caps else none
      | none => if positive then none else k i caps
    | .eos => if atEos s i then k i caps else none
    | .wb => if isBoundary s i then k i caps else none

/-- Fuel bound used for all concrete evaluations. -/
def reFuel (s : Str) (re : RE) : Nat := (s.length + 2) * (reSize re + 2) * 2

/-- Try to match `re` anchored at position `i` (Python `re.match` at `i`). -/
def reMatchAt (s : Str) (re : RE) (i : Nat) : Option (Nat × Caps) :=
  reMatch s (reFuel s re) re i [] (fun j caps => some (j, caps))

/-- Worker for `reFindFrom`; `fuel` bounds the number of start positions
tried. -/
def reFindFromAux (s : Str) (re : RE) : Nat → Nat → Option (Nat × Nat × Caps)
  | 0, _ => none
  | fuel + 1, start =>
    if start ≤ s.length then
      match reMatchAt s re start with
      | some (j, caps) => some (start, j, caps)
      | none => reFindFromAux s re fuel (start + 1)
    else none

/-- Leftmost match at a position `≥ start` (Python scanning): returns
`(matchStart, matchEnd, captures)`. -/
def reFindFrom (s : Str) (re : RE) (start : Nat) : Option (Nat × Nat × Caps) :=
  reFindFromAux s re (s.length + 1) start

/-- Python `re.search`: leftmost match in `s`. -/
def reSearch (s : Str) (re : RE) : Option (Nat × Nat × Caps) := reFindFrom s re 0

/-- The text of capture group `n` of a match over `s`; `none` when the group
did not participate (Python `None`). -/
def capText (s : Str) (caps : Caps) (n : Nat) : Option Str :=
  match capLookup caps n with
  | some (a, b) => some ((s.drop a).take (b - a))
  | none => none

/-- Group text defaulting to the empty string. -/
def capTextD (s : Str) (caps : Caps) (n : Nat) : Str := (capText s caps n).getD []

/-- Core loop of Python `re.sub` with a replacement function: repeatedly
find the leftmost match from the current position, emit the text before it
and the replacement, and continue after the match (advancing one character
after an empty match, as Python does). -/
def reSubLoop (re : RE) (repl : Str → Caps → Str) (s : Str) :
    Nat → Nat → Str
  | 0, pos => s.drop pos
  | fuel + 1, pos =>
    match reFindFrom s re pos with
    | none => s.drop pos
    | some (a, b, caps) =>
      let before := (s.drop pos).take (a - pos)
      let matched := (s.drop a).take (b - a)
      if b > a then
        before ++ repl matched caps ++ reSubLoop re repl s fuel b
      else
        match s.get? b with
        | some c => before ++ repl matched caps ++ (c :: reSubLoop re repl s fuel (b + 1))
        | none => before ++ repl matched caps

/-- Python `re.sub(pattern, repl, s)` where `repl` is a function of the
matched text and the captures (string templates `\1` etc. are expressed as
such functions at each use site). -/
def reSub (re : RE) (repl : Str → Caps → Str) (s : Str) : Str :=
  reSubLoop re repl s (s.length + 1) 0

/-- `re.sub` with a constant replacement string. -/
def reSubConst (re : RE) (r : Str) (s : Str) : Str := reSub re (fun _ _ => r) s

/-! ### Pattern constructors -/

/-- A single case-sensitive literal character. -/
def reChr (c : Char) : RE := .pred (fun x => x = c)

/-- A single case-insensitive literal character (`re.IGNORECASE`). -/
def reIChr (c : Char) : RE := .pred (fun x => lowerChar x = lowerChar c)

def reCats (l : List RE) : RE :=
  match l with
  | [] => .eps
  | [r] => r
  | r :: rest => .cat r (reCats rest)

/-- Case-sensitive literal string. -/
def reStr (t : String) : RE := reCats (t.data.map reChr)

/-- Case-insensitive literal string. -/
def reIStr (t : String) : RE := reCats (t.data.map reIChr)

/-- `(?:a|b|c|...)`, left preferred, as in Python. -/
def reAlts (l : List RE) : RE :=
  match l with
  | [] => .eps
  | [r] => r
  | r :: rest => .alt r (reAlts rest)

/-- `r+` (greedy when the flag is true). -/
def rePlus (greedy : Bool) (r : RE) : RE := .cat r (.star greedy r)

/-- `r?` (greedy when the flag is true). -/
def reOpt (greedy : Bool) (r : RE) : RE :=
  if greedy then .alt r .eps else .alt .eps r

/-- `r{n}`. -/
def reTimes : Nat → RE → RE
  | 0, _ => .eps
  | n + 1, r => .cat r (reTimes n r)

/-- `r{0,n}`, greedy. -/
def reUpTo : Nat → RE → RE
  | 0, _ => .eps
  | n + 1, r => .alt (.cat r (reUpTo n r)) .eps

/-- `r{m,n}`, greedy. -/
def reRange (m n : Nat) (r : RE) : RE := .cat (reTimes m r) (reUpTo (n - m) r)

/-- `r{m,}`, greedy. -/
def reAtLeast (m : Nat) (r : RE) : RE := .cat (reTimes m r) (.star true r)

/-- `.` (any character except newline). -/
def reDot : RE := .pred (fun c => !(c = '\n'))

/-- `[\s\S]` (any character including newline). -/
def reAny : RE := .pred (fun _ => true)

/-- `.*?` (lazy). -/
def reDotLazy : RE := .star false reDot

def reW : RE := .pred isWordChar
def reS : RE := .pred isSpaceChar
def reD : RE := .pred isDigitChar

/-! ## MarkdownCleaner (src/lib/markdown_cleaner.py)

Each `_`-prefixed method of the Python class becomes a definition in this
namespace (without the leading underscore).  Every regular expression of
the source is transcribed node by node; `reIStr`/`reIChr` mark the
patterns compiled with `re.IGNORECASE`.
-/

namespace MarkdownCleaner

/-- Shorthand for the literal `\*\*`. -/
def reBB : RE := reCats [reChr '*', reChr '*']

/-- Shorthand for `\s*`. -/
def reSstar : RE := .star true reS

/-- Shorthand for `\s+`. -/
def reSplus : RE := rePlus true reS

/-- Shorthand for `\w+`. -/
def reWplus : RE := rePlus true reW

/-- Pattern `https?:\/\/` under `re.IGNORECASE`. -/
def reHttps : RE := reCats [reIStr ("http"), reOpt true (reIChr 's'), reStr ("://")]

/-- Rule (a) `_normalize_line_breaks`: convert `\r\n` and `\r` to `\n`. -/
def normalize_line_breaks (text : Str) : Str :=
  strReplace (strReplace text ("\r\n").data ("\n").data) ("\r").data ("\n").data

/-- One month alternative of the date pattern, e.g. `Jan(?:uary)?`. -/
def monthRE (short long : String) : RE := .cat (reStr short) (reOpt true (reStr long))

/-- The publication-date pattern of `_extract_article_date` (case
sensitive, as in the source):
`(\d{1,2})\s+(Jan(?:uary)?|...|Dec(?:ember)?),?\s+(\d{4})\s*(?:•|·)?\s*(\d{1,2}):(\d{2})\s*([ap]m)?\s*([A-Z]{2,4})?` -/
def datePattern : RE := reCats [
  .grp 1 (reRange 1 2 reD),
  reSplus,
  .grp 2 (reAlts [monthRE ("Jan") ("uary"), monthRE ("Feb") ("ruary"),
    monthRE ("Mar") ("ch"), monthRE ("Apr") ("il"), reStr ("May"),
    monthRE ("Jun") ("e"), monthRE ("Jul") ("y"), monthRE ("Aug") ("ust"),
    monthRE ("Sep") ("tember"), monthRE ("Oct") ("ober"),
    monthRE ("Nov") ("ember"), monthRE ("Dec") ("ember")]),
  reOpt true (reChr ','),
  reSplus,
  .grp 3 (reTimes 4 reD),
  reSstar,
  reOpt true (.alt (reChr '•') (reChr '·')),
  reSstar,
  .grp 4 (reRange 1 2 reD),
  reChr ':',
  .grp 5 (reTimes 2 reD),
  reSstar,
  reOpt true (.grp 6 (reCats [.pred (fun c => c = 'a' ∨ c = 'p'), reChr 'm'])),
  reSstar,
  reOpt true (.grp 7 (reRange 2 4 (.pred (fun c => 65 ≤ c.toNat ∧ c.toNat ≤ 90))))]

/-- Rule (b) `_extract_article_date`: find the first date match, rewrite it
to a canonical `Published on …` phrase, delete every occurrence of that
phrase, and re-insert it after the first `\n\n`-separated block (both
branches of the source's `if '![' …` test produce the same concatenation). -/
def extract_article_date (text : Str) : Str :=
  match reSearch text datePattern with
  | none => text
  | some (a, b, caps) =>
    let original := (text.drop a).take (b - a)
    let day := capTextD text caps 1
    let month := capTextD text caps 2
    let year := capTextD text caps 3
    let hour := capTextD text caps 4
    let minute := capTextD text caps 5
    let ampm := capText text caps 6
    let tz := capText text caps 7
    let base := ("Published on ").data ++ day ++ (" ").data ++ month ++ (" ").data ++ year
    let withTime :=
      if hour ≠ [] ∧ minute ≠ [] then
        let ts := hour ++ (":").data ++ minute
        let ts := match ampm with
          | some ap => if ap ≠ [] then ts ++ (" ").data ++ ap else ts
          | none => ts
        base ++ (" at ").data ++ ts
      else base
    let clean_date :=
      match tz with
      | some z => if z ≠ [] then withTime ++ (" ").data ++ z else withTime
      | none => withTime
    let text1 := strReplace text original clean_date
    let text2 := strReplace text1 clean_date []
    match strSplitMax ("\n\n").data 2 text2 with
    | p0 :: p1 :: rest =>
      p0 ++ ("\n\n").data ++ clean_date ++ ("\n\n").data
        ++ strJoin ("\n\n").data (p1 :: rest)
    | _ => clean_date ++ ("\n\n").data ++ text2

/-- CPython `urllib.parse` scheme characters. -/
def isSchemeChar (c : Char) : Bool :=
  (65 ≤ c.toNat ∧ c.toNat ≤ 90) ∨ (97 ≤ c.toNat ∧ c.toNat ≤ 122) ∨
  (48 ≤ c.toNat ∧ c.toNat ≤ 57) ∨ c = '+' ∨ c = '-' ∨ c = '.'

def isAsciiAlpha (c : Char) : Bool :=
  (65 ≤ c.toNat ∧ c.toNat ≤ 90) ∨ (97 ≤ c.toNat ∧ c.toNat ≤ 122)

/-- Result of `urllib.parse.urlparse` restricted to the three fields the
source reads (`scheme`, `netloc`, `path`). -/
structure UrlParts where
  scheme : Str
  netloc : Str
  path : Str

/-- Index of the first occurrence of `c` in `s`, if any (Python `find`). -/
def strFindChar (c : Char) (s : Str) : Option Nat :=
  match s with
  | [] => none
  | x :: rest => if x = c then some 0 else (strFindChar c rest).map (· + 1)

/-- Index of the last occurrence of `c` in `s`, if any (Python `rfind`). -/
def strRFindChar (c : Char) (s : Str) : Option Nat :=
  match s with
  | [] => none
  | x :: rest =>
    match strRFindChar c rest with
    | some i => some (i + 1)
    | none => if x = c then some 0 else none

/-- CPython `uses_params` scheme list (`urllib/parse.py`). -/
def usesParams : List Str :=
  [("").data, ("ftp").data, ("hdl").data, ("prospero").data, ("http").data,
   ("imap").data, ("https").data, ("shttp").data, ("rtsp").data,
   ("rtspu").data, ("sip").data, ("sips").data, ("mms").data,
   ("sftp").data, ("tel").data]

/-- CPython `_splitparams`: split `;params` off the last path segment. -/
def splitParams (url : Str) : Str :=
  match strFindChar '/' url with
  | some _ =>
    let lastSlash := (strRFindChar '/' url).getD 0
    let tail := url.drop lastSlash
    match strFindChar ';' tail with
    | some i => url.take (lastSlash + i)
    | none => url
  | none =>
    match strFindChar ';' url with
    | some i => url.take i
    | none => url

/-- Model of CPython `urllib.parse.urlparse` (scheme / netloc / path
fields; fragment, query and params are split off exactly as in
`_urlsplit`, and discarded since the source only rebuilds
`scheme + '://' + netloc + path`). -/
def urlparse (url : Str) : UrlParts :=
  let (scheme, rest) :=
    match strFindChar ':' url with
    | some i =>
      if decide (0 < i) && (match url.head? with | some c => isAsciiAlpha c | none => false)
          && (url.take i).all isSchemeChar then
        (lowerStr (url.take i), url.drop (i + 1))
      else (([] : Str), url)
    | none => (([] : Str), url)
  let (netloc, rest) :=
    if ("//").data.isPrefixOf rest then
      let after := rest.drop 2
      let n := after.takeWhile (fun c => !(c = '/') ∧ !(c = '?') ∧ !(c = '#'))
      (n, after.drop n.length)
    else (([] : Str), rest)
  let rest := match strFindChar '#' rest with
    | some i => rest.take i
    | none => rest
  let rest := match strFindChar '?' rest with
    | some i => rest.take i
    | none => rest
  let path :=
    if decide (scheme ∈ usesParams) ∧ (strFindChar ';' rest).isSome then
      splitParams rest
    else rest
  ⟨scheme, netloc, path⟩

/-- The markdown image pattern `!\[(.*?)\]\((.*?)\)`. -/
def imgPattern : RE := reCats [reChr '!', reChr '[', .grp 1 reDotLazy, reChr ']',
  reChr '(', .grp 2 reDotLazy, reChr ')']

/-- The replacement function `clean_image_ref` of `_clean_image_references`. -/
def cleanImageRef (s : Str) (caps : Caps) : Str :=
  let alt0 := pyStrip (capTextD s caps 1)
  let url0 := pyStrip (capTextD s caps 2)
  let alt1 := reSubConst (reCats [reSplus, reStr ("image"), .eos]) [] alt0
  let alt2 := reSubConst (reCats [.wb, reStr ("image"), .wb, reSplus]) [] alt1
  let up := urlparse url0
  let clean1 := up.scheme ++ ("://").data ++ up.netloc ++ up.path
  let clean2 := strReplace clean1 (" ").data ("%20").data
  let clean3 := reSubConst (reCats [reChr '.', reSplus]) (".").data clean2
  ("![").data ++ alt2 ++ ("](").data ++ clean3 ++ (")").data

/-- Rule (c) `_clean_image_references`. -/
def clean_image_references (text : Str) : Str :=
  reSub imgPattern (fun _ caps => cleanImageRef text caps) text

/-- Class `[.,;:!?]`. -/
def isPunct (c : Char) : Bool :=
  c = '.' ∨ c = ',' ∨ c = ';' ∨ c = ':' ∨ c = '!' ∨ c = '?'

/-- Rule (d) `_fix_text_formatting`: the eight substitutions of the source,
in order (all case sensitive). -/
def fix_text_formatting (text : Str) : Str :=
  let t := text
  let t := reSub (reCats [.grp 1 reWplus, reSstar, reBB, reSstar, reChr ',',
      reSstar, reBB, reSstar, .grp 2 reWplus])
    (fun _ caps => capTextD t caps 1 ++ (", ").data ++ capTextD t caps 2) t
  let t := reSub (reCats [.grp 1 (rePlus true reD), reSstar, reBB, reSstar, reChr ':',
      reSstar, reBB, reSstar, .grp 2 (rePlus true reD)])
    (fun _ caps => capTextD t caps 1 ++ (":").data ++ capTextD t caps 2) t
  let t := reSub (reCats [reSplus, .grp 1 (.pred isPunct)])
    (fun _ caps => capTextD t caps 1) t
  let t := reSub (reCats [reStr ("in"), reSplus, reBB, reSstar, .grp 1 reWplus,
      reSstar, reBB, reSstar, reChr ',', reSstar, reBB, reSstar, .grp 2 reWplus,
      reSstar, reBB])
    (fun _ caps => ("in **").data ++ capTextD t caps 1 ++ (", ").data
      ++ capTextD t caps 2 ++ ("**").data) t
  let t := reSubConst (reCats [reWplus, reSplus, reStr ("Super"), reSplus,
      reStr ("Giants"), reSplus, reChr '(', reSstar, reStr ("LSG"), reSstar,
      reChr ')']) ("Lucknow Super Giants (LSG)").data t
  let t := reSubConst (reCats [reStr ("Royal"), reSplus, reStr ("Challengers"),
      reSplus, reStr ("Bengaluru"), reSplus, reChr '(', reSstar, reStr ("RCB"),
      reSstar, reChr ')']) ("Royal Challengers Bengaluru (RCB)").data t
  let t := reSub (reCats [reStr ("match"), reSplus, reStr ("no"), reChr '.',
      reSplus, .grp 1 (rePlus true reD)])
    (fun _ caps => ("match no. ").data ++ capTextD t caps 1) t
  let t := reSub (reCats [reStr ("at"), reSplus, reStr ("the"), reSplus, reBB,
      reSstar, .grp 1 (reCats [reWplus, .star true (reCats [reSplus, reWplus])]),
      reSplus, reStr ("Stadium"), reSstar, reBB])
    (fun _ caps => ("at the **").data ++ capTextD t caps 1 ++ (" Stadium**").data) t
  t

/-- Remove every line whose lower-cased text contains one of the keywords
(the two-phase keyword line filter shared by the betting and social rules). -/
def removeKeywordLines (kws : List Str) (text : Str) : Str :=
  strJoin ("\n").data ((strSplitChar '\n' text).filter
    (fun line => !(kws.any (fun kw => strContains (lowerStr line) kw))))

/-- Class `[^\s)]`. -/
def notSpaceParen (c : Char) : Bool := !(isSpaceChar c) && !(c = ')')

/-- Shortener alternation `(?:bit\.ly|tinyurl\.com|goo\.gl)` (IGNORECASE). -/
def shortenerRE : RE := reAlts [reIStr ("bit.ly"), reIStr ("tinyurl.com"), reIStr ("goo.gl")]

/-- The four `betting_patterns` of `_remove_betting_promotions`
(all IGNORECASE). -/
def betting_patterns : List RE := [
  reCats [reBB, reSstar, reIStr ("BET"), reSplus, reIStr ("NOW"), reSstar,
    reChr ':', reSstar, reBB, reSstar, reChr '[', reDotLazy, reChr ']',
    reChr '(', reHttps, shortenerRE, reChr '/',
    rePlus true (.pred notSpaceParen), reChr ')'],
  reCats [reChr '[',
    reAlts [reIStr ("Bet"), reIStr ("Claim"), reIStr ("Get"), reIStr ("Grab"),
      reIStr ("Win")],
    reDotLazy,
    reAlts [reIStr ("bonus"), reIStr ("offer"), reIStr ("promotion"),
      reIStr ("bet"),
      reCats [reIStr ("sign"),
        reOpt true (.pred (fun c => isSpaceChar c || c = '-')), reIStr ("up")]],
    reDotLazy, reChr ']', reChr '(', reHttps, shortenerRE, reChr '/',
    rePlus true (.pred notSpaceParen), reChr ')'],
  reCats [reBB, reDotLazy, reIStr ("WIN"), reSplus, reIStr ("WELCOME"),
    reSplus, reIStr ("BONUS"), reDotLazy, reBB],
  reCats [reChr '[', reDotLazy,
    reAlts [reIStr ("bet"), reIStr ("claim"), reIStr ("win"), reIStr ("bonus"),
      reIStr ("offer")],
    reDotLazy, reChr ']', reChr '(', reHttps, reDotLazy, reChr ')']]

/-- The `betting_keywords` list of the source. -/
def betting_keywords : List Str :=
  [("bet now").data, ("welcome bonus").data, ("sign up").data, ("click").data,
   ("sign-up").data, ("bonus code").data, ("free bet").data,
   ("promo code").data, ("deposit").data, ("betting").data,
   ("wagering").data, ("sportsbook").data]

/-- Rule (e) `_remove_betting_promotions`: remove the pattern matches, then
drop every line containing a betting keyword. -/
def remove_betting_promotions (text : Str) : Str :=
  removeKeywordLines betting_keywords
    (betting_patterns.foldl (fun t p => reSubConst p [] t) text)

/-- The four `social_patterns` of `_remove_social_media_promotions`
(all IGNORECASE). -/
def social_patterns : List RE := [
  reCats [reChr '[', reIStr ("Follow"), reSplus,
    reOpt true (reCats [reIStr ("The"), reSplus]),
    rePlus true (reCats [reWplus, reSplus]), reIStr ("on"), reSplus,
    reAlts [reIStr ("Twitter"), reIStr ("Facebook"), reIStr ("Instagram"),
      reIStr ("WhatsApp"), reIStr ("Telegram")],
    reChr ']', reChr '(', reHttps, reDotLazy, reChr ')'],
  reCats [reChr '[', reIStr ("Subscribe"), reSplus, reIStr ("to"), reSplus,
    reIStr ("our"), reSplus,
    reAlts [reIStr ("YouTube"), reIStr ("Facebook"), reIStr ("Telegram")],
    reSplus, reIStr ("channel"), reChr ']', reChr '(', reHttps, reDotLazy,
    reChr ')'],
  reCats [reIStr ("Follow"), reSplus,
    .alt (reIStr ("us")) (reCats [reIStr ("The"), reSplus, reWplus]),
    reSplus, reIStr ("on"), reSplus,
    reAlts [reIStr ("Twitter"), reIStr ("Facebook"), reIStr ("Instagram"),
      reIStr ("WhatsApp"), reIStr ("Telegram")]],
  reCats [reHttps, reAlts [reIStr ("sn-now.com"), reIStr ("bit.ly")],
    reChr '/', reWplus,
    reAlts [reIStr ("WhatsApp"), reIStr ("Facebook"), reIStr ("Twitter"),
      reIStr ("Instagram")],
    .star true reW]]

/-- The `social_keywords` list of the source. -/
def social_keywords : List Str :=
  [("follow us").data, ("join us").data, ("subscribe").data,
   ("like our").data, ("share this").data, ("connect with us").data,
   ("stay updated").data, ("don\x27t miss").data, ("for more updates").data]

/-- Rule (f) `_remove_social_media_promotions`. -/
def remove_social_media_promotions (text : Str) : Str :=
  removeKeywordLines social_keywords
    (social_patterns.foldl (fun t p => reSubConst p [] t) text)

/-- The four `article_patterns` of `_remove_other_article_promotions`
(all IGNORECASE). -/
def article_patterns : List RE := [
  reCats [reBB, reSstar, reIStr ("READ"), reSplus, reIStr ("MORE"), reSstar,
    reChr ':', reSstar, reBB, reSstar, reChr '[', reDotLazy, reChr ']',
    reChr '(', reHttps, reDotLazy, reChr ')'],
  reCats [reChr '[', reIStr ("ALSO"), reSplus, reIStr ("READ"), reChr ':',
    reDotLazy, reChr ']', reChr '(', reHttps, reDotLazy, reChr ')'],
  reCats [reBB, reSstar, reIStr ("RELATED"), reOpt true (reChr ':'), reSstar,
    reBB, reSstar, reChr '[', reDotLazy, reChr ']', reChr '(', reHttps,
    reDotLazy, reChr ')'],
  reCats [reBB, reSstar, reIStr ("CHECK"), reSplus, reIStr ("OUT"),
    reOpt true (reChr ':'), reSstar, reBB, reSstar, reChr '[', reDotLazy,
    reChr ']', reChr '(', reHttps, reDotLazy, reChr ')']]

/-- Rule (g) `_remove_other_article_promotions`. -/
def remove_other_article_promotions (text : Str) : Str :=
  article_patterns.foldl (fun t p => reSubConst p [] t) text

/-- The four `footer_patterns` of `_remove_footer_elements` (all IGNORECASE). -/
def footer_patterns : List RE := [
  reCats [reIStr ("For"), reSplus, reIStr ("more"), reSplus,
    reAlts [reIStr ("updates"), reIStr ("news"), reIStr ("information")],
    reSplus, reIStr ("on"), reDotLazy, reIStr ("visit"), reSplus,
    reIStr ("our"), reSplus, reIStr ("website")],
  reCats [reIStr ("Don\x27t"), reSplus, reIStr ("forget"), reSplus,
    reIStr ("to"), reSplus,
    reAlts [reIStr ("follow"), reIStr ("subscribe"), reIStr ("check")],
    reSplus, reIStr ("us"), reSplus, reIStr ("on")],
  reCats [reIStr ("Copyright"), reSplus, reChr '©', reSplus, reTimes 4 reD,
    reDotLazy, reIStr ("All"), reSplus, reIStr ("rights"), reSplus,
    reIStr ("reserved")],
  reCats [reChr '©', reChr ' ', reTimes 4 reD,
    reOpt true (reCats [reChr '–', reTimes 4 reD]), reSplus,
    rePlus true (reCats [reWplus, reSplus]), reChr '.', reSplus,
    reIStr ("All"), reSplus, reIStr ("rights"), reSplus, reIStr ("reserved"),
    reChr '.']]

/-- Rule (h) `_remove_footer_elements`. -/
def remove_footer_elements (text : Str) : Str :=
  footer_patterns.foldl (fun t p => reSubConst p [] t) text

/-- Logo-word alternation `(?:logo|icon|badge|emblem|symbol)` (IGNORECASE). -/
def logoWordRE : RE :=
  reAlts [reIStr ("logo"), reIStr ("icon"), reIStr ("badge"),
    reIStr ("emblem"), reIStr ("symbol")]

/-- Size alternation `(?:20|30|40|50|60|70|80|90|100)`. -/
def sizeNumRE : RE :=
  reAlts [reStr ("20"), reStr ("30"), reStr ("40"), reStr ("50"),
    reStr ("60"), reStr ("70"), reStr ("80"), reStr ("90"), reStr ("100")]

/-- Lazy `[^>]*?`. -/
def notGtLazy : RE := .star false (.pred (fun c => !(c = '>')))

/-- The six `logo_patterns` of `_remove_logos` (all IGNORECASE). -/
def logo_patterns : List RE := [
  reCats [reChr '!', reChr '[', reDotLazy, logoWordRE, reDotLazy, reChr ']',
    reChr '(', reDotLazy, reChr ')'],
  reCats [reChr '!', reChr '[', reDotLazy, reChr ']', reChr '(', reDotLazy,
    logoWordRE, reDotLazy, reChr ')'],
  reCats [reChr '!', reChr '[', reDotLazy, reChr ']', reChr '(', reDotLazy,
    reAlts [reIStr ("width"), reIStr ("height")], reChr '=',
    reOpt true (reChr '"'), sizeNumRE, reOpt true (reChr '"'), reDotLazy,
    reChr ')'],
  reCats [reChr '!', reChr '[', reChr ']', reChr '(', reDotLazy, reChr ')'],
  reCats [reChr '<', reIStr ("img"), notGtLazy, logoWordRE, notGtLazy,
    reChr '>'],
  reCats [reChr '<', reIStr ("img"), notGtLazy,
    reAlts [reIStr ("width"), reIStr ("height")], reChr '=',
    reOpt true (reChr '"'), sizeNumRE, reOpt true (reChr '"'), notGtLazy,
    reChr '>']]

/-- Rule (i) `_remove_logos`. -/
def remove_logos (text : Str) : Str :=
  logo_patterns.foldl (fun t p => reSubConst p [] t) text

/-- The link pattern `\[([^\]]+)\]\(([^)]+)\)` of `_remove_general_links`. -/
def linkPattern : RE :=
  reCats [reChr '[', .grp 1 (rePlus true (.pred (fun c => !(c = ']')))),
    reChr ']', reChr '(', .grp 2 (rePlus true (.pred (fun c => !(c = ')')))),
    reChr ')']

/-- Rule (j) `_remove_general_links`: replace every markdown link by its
visible text. -/
def remove_general_links (text : Str) : Str :=
  reSub linkPattern (fun _ caps => capTextD text caps 1) text

/-- Rule (k) `_fix_bold_formatting`: the seven substitutions of the source,
in order. -/
def fix_bold_formatting (text : Str) : Str :=
  let t := text
  let t := reSubConst (reCats [reBB, reSplus, reBB]) (" ").data t
  let t := reSubConst (reCats [reBB, reChr ')', reSplus, reBB]) ("**) ").data t
  let t := reSubConst (reCats [reBB, reSstar, reChr ',', reSstar, reBB]) (", ").data t
  let t := reSub (reCats [reBB, reSplus, .grp 1 reWplus, reBB])
    (fun _ caps => ("**").data ++ capTextD t caps 1 ++ ("**").data) t
  let t := reSub (reCats [.grp 1 reWplus, reSplus, reBB])
    (fun _ caps => capTextD t caps 1 ++ ("**").data) t
  let t := reSub (reCats [reBB, reSstar, .grp 1 (.pred isPunct)])
    (fun _ caps => capTextD t caps 1) t
  let t := reSubConst (reCats [reChr '*', reChr '*', reChr '*', reChr '*']) ("**").data t
  t

/-- Class `[\w\s]`. -/
def isWordOrSpace (c : Char) : Bool := isWordChar c || isSpaceChar c

/-- The team-matchup pattern of `_fix_heading_structure` (case sensitive):
`(\w+(?:\s+\w+)*)\s+\((\w+)\)\s+(?:vs|versus|v\/s|will\s+(?:face|play|meet))\s+(\w+(?:\s+\w+)*)\s+\((\w+)\)` -/
def teamMatchPattern : RE := reCats [
  .grp 1 (reCats [reWplus, .star true (reCats [reSplus, reWplus])]),
  reSplus, reChr '(', .grp 2 reWplus, reChr ')', reSplus,
  reAlts [reStr ("vs"), reStr ("versus"), reStr ("v/s"),
    reCats [reStr ("will"), reSplus,
      reAlts [reStr ("face"), reStr ("play"), reStr ("meet")]]],
  reSplus,
  .grp 3 (reCats [reWplus, .star true (reCats [reSplus, reWplus])]),
  reSplus, reChr '(', .grp 4 reWplus, reChr ')']

/-- The stadium pattern of `_fix_heading_structure` (case sensitive):
`at\s+the\s+\*\*\s*([\w\s]+Stadium[\w\s]*)\s*\*\*\s+in\s+\*\*\s*([\w\s,]+)\s*\*\*` -/
def stadiumPattern : RE := reCats [
  reStr ("at"), reSplus, reStr ("the"), reSplus, reBB, reSstar,
  .grp 1 (reCats [rePlus true (.pred isWordOrSpace), reStr ("Stadium"),
    .star true (.pred isWordOrSpace)]),
  reSstar, reBB, reSplus, reStr ("in"), reSplus, reBB, reSstar,
  .grp 2 (rePlus true (.pred (fun c => isWordOrSpace c || c = ','))),
  reSstar, reBB]

/-- The match-information pattern (IGNORECASE):
`(match\s+no\.\s+(\d+)[\s\S]*?IPL[\s\S]*?\d{4})` -/
def matchInfoPattern : RE :=
  .grp 1 (reCats [reIStr ("match"), reSplus, reIStr ("no"), reChr '.',
    reSplus, .grp 2 (rePlus true reD), .star false reAny, reIStr ("IPL"),
    .star false reAny, reTimes 4 reD])

/-- Rule (l) `_fix_heading_structure`: promote team matchups to `##`
headings, stadium phrases to `### Venue:` headings, and prefix the
match-information span with a `### Match Information` heading. -/
def fix_heading_structure (text : Str) : Str :=
  let t := text
  let t := reSub teamMatchPattern
    (fun _ caps => ("## ").data ++ capTextD t caps 1 ++ (" (").data
      ++ capTextD t caps 2 ++ (") vs ").data ++ capTextD t caps 3
      ++ (" (").data ++ capTextD t caps 4 ++ (")").data) t
  let t2 := reSub stadiumPattern
    (fun _ caps => ("### Venue: ").data ++ capTextD t caps 1 ++ (" in ").data
      ++ capTextD t caps 2) t
  let t3 :=
    if strContains (lowerStr t2) ("match no.").data then
      match reSearch t2 matchInfoPattern with
      | some (_, _, caps) =>
        let match_info := capTextD t2 caps 1
        strReplace t2 match_info (("### Match Information\n").data ++ match_info)
      | none => t2
    else t2
  t3

/-- Rule (m) `_clean_whitespace`: collapse 3+ newlines, strip trailing
line whitespace, put a blank line after headings, collapse repeated
spaces, and strip the whole document. -/
def clean_whitespace (text : Str) : Str :=
  let t := text
  let t := reSubConst (reAtLeast 3 (reChr '\n')) ("\n\n").data t
  let t := reSubConst (reCats [rePlus true (reChr ' '), reChr '\n']) ("\n").data t
  let t := reSub (reCats [
      .grp 1 (reCats [reChr '\n', reRange 1 3 (reChr '#'), reChr ' ',
        rePlus true reDot]),
      reChr '\n', .look false (reAlts [.eos, reChr '#', reChr '\n'])])
    (fun _ caps => capTextD t caps 1 ++ ("\n\n").data) t
  let t := reSubConst (reAtLeast 2 (reChr ' ')) (" ").data t
  pyStrip t

/-- The `clean` method: the sequence of rule applications exactly as they
appear in `MarkdownCleaner.clean` (note that `_remove_logos` and
`_remove_general_links` run directly after `_clean_image_references`,
before the promotion-removal rules). -/
def clean (text : Str) : Str :=
  let t := text
  let t := normalize_line_breaks t
  let t := extract_article_date t
  let t := clean_image_references t
  let t := remove_logos t
  let t := remove_general_links t
  let t := fix_text_formatting t
  let t := remove_betting_promotions t
  let t := remove_social_media_promotions t
  let t := remove_other_article_promotions t
  let t := remove_footer_elements t
  let t := fix_bold_formatting t
  let t := fix_heading_structure t
  let t := clean_whitespace t
  t

end MarkdownCleaner

namespace MarkdownCleaner

/-- Modelled from the spec: the sequential composition of the cleaning
rules in the order the spec states them, (a) line breaks, (b) date,
(c) images, (d) text formatting, (e) betting, (f) social media,
(g) read-more, (h) footer, (i) logos, (j) links, (k) bold, (l) headings,
(m) whitespace — to be compared with `clean`, which is transcribed from
the source. -/
def cleanSpecOrder (text : Str) : Str :=
  let t := text
  let t := normalize_line_breaks t
  let t := extract_article_date t
  let t := clean_image_references t
  let t := fix_text_formatting t
  let t := remove_betting_promotions t
  let t := remove_social_media_promotions t
  let t := remove_other_article_promotions t
  let t := remove_footer_elements t
  let t := remove_logos t
  let t := remove_general_links t
  let t := fix_bold_formatting t
  let t := fix_heading_structure t
  let t := clean_whitespace t
  t

end MarkdownCleaner

/-! ## oprah.py: fetching, filtering and fan-out -/

namespace Oprah

/-- Outcome of the `aiohttp` GET issued by `fetch_article`: a response
(with status and body), or one of the three exception classes the source
catches (`asyncio.TimeoutError`, `aiohttp.ClientError`, anything else). -/
inductive NetResult where
  | response (status : Nat) (html : Str)
  | timeoutErr
  | clientErr
  | otherErr

/-- The external text-processing collaborators used by
`parse_html_content`: `BeautifulSoup`+`markdownify` (`convert`), the
`MarkdownTextSplitter` (`splitText`) and `MarkdownParser.parse`
(`mdParse`).  Each may raise, modelled by `Except Unit`. -/
structure ParseEnv where
  convert : Str → Except Unit Str
  splitText : Str → Except Unit (List Str)
  mdParse : Str → Except Unit Str

/-- Model of `parse_html_content`: convert the HTML to markdown, clean it
with `MarkdownCleaner.clean`, split into chunks, concatenate each chunk
followed by `\n`, and run the markdown parser; any exception in the body
is caught and turned into `None`. -/
def parse_html_content (env : ParseEnv) (html : Str) : Option Str :=
  let body : Except Unit Str := do
    let md ← env.convert html
    let cleaned := MarkdownCleaner.clean md
    let chunks ← env.splitText cleaned
    let mtext := chunks.foldl (fun acc t => acc ++ t ++ ("\n").data) []
    env.mdParse mtext
  match body with
  | .ok s => some s
  | .error _ => none

/-- The failure markers returned by `fetch_article`. -/
def fetchFailedMarker (status : Nat) (url : Str) : Str :=
  ("[Fetch Failed: ").data ++ showNat status ++ ("] ").data ++ url

def parseFailedMarker (url : Str) : Str := ("[Parse Failed] ").data ++ url

def timeoutMarker (url : Str) : Str := ("[Timeout] ").data ++ url

def clientErrorMarker (url : Str) : Str := ("[ClientError] ").data ++ url

def unhandledErrorMarker (url : Str) : Str := ("[UnhandledError] ").data ++ url

/-- The success value of `fetch_article`: the parsed content followed by
the trailing attribution `\nSource: <url>\n`. -/
def sourceAttributed (content url : Str) : Str :=
  content ++ ("\nSource: ").data ++ url ++ ("\n").data

/-- Model of `fetch_article`: status ≠ 200 gives the fetch-failed marker;
falsy parse output (`None` or the empty string) gives the parse-failed
marker; otherwise the parsed content with the source attribution; the
three exception classes give their respective markers.  The function is
total: no case raises. -/
def fetch_article (env : ParseEnv) (url : Str) (net : NetResult) : Str :=
  match net with
  | .response status html =>
    if status ≠ 200 then fetchFailedMarker status url
    else
      match parse_html_content env html with
      | some p => if p = [] then parseFailedMarker url else sourceAttributed p url
      | none => parseFailedMarker url
  | .timeoutErr => timeoutMarker url
  | .clientErr => clientErrorMarker url
  | .otherErr => unhandledErrorMarker url

/-- The blocklisted domain substrings of `get_news_urls`. -/
def newsBlocklist : List Str :=
  [("britannica.com").data, ("youtube.com").data, ("youtu.be").data,
   ("instagram.com").data, ("facebook.com").data, ("twitter.com").data,
   ("x.com").data]

/-- The explicit `skip_set` of `get_news_urls`. -/
def skip_set : List Str := [("https://uplegisassembly.gov.in/index_en.html").data]

/-- The per-URL filter of the list comprehension in `get_news_urls`:
starts with `https://`, does not end in `.pdf` case-insensitively, no
blocklisted domain substring, not in the skip set. -/
def urlFilterOk (u : Str) : Bool :=
  ("https://").data.isPrefixOf u
  && !((".pdf").data.isSuffixOf (lowerStr u))
  && newsBlocklist.all (fun d => !(strContains u d))
  && !(decide (u ∈ skip_set))

/-- The pure core of `get_news_urls` on the `results` list of the search
response (each entry is the optional `url` field of one result object):
the list comprehension filters, then `[:6]` truncates, then
`list(set(urls))` deduplicates.  CPython's set iteration order is
unspecified; we model it with `List.dedup` — every property proved about
the output is order-independent.  Note the source truncates *before*
deduplicating. -/
def get_news_urls_filter (results : List (Option Str)) : List Str :=
  ((results.filterMap id).filter urlFilterOk).take 6 |>.dedup

/-- The search-service call of `get_news_urls`: a non-200 status or
transport failure yields `[]` (logged, not raised); otherwise the result
list is filtered. -/
inductive SearchApi where
  | fail
  | ok (results : List (Option Str))

def get_news_urls (api : SearchApi) : List Str :=
  match api with
  | .fail => []
  | .ok results => get_news_urls_filter results

/-- The fan-out of `webscraper` over the discovered URLs: with no URLs it
returns `None` (the source's bare `return`); otherwise one `fetch_article`
task per URL, gathered by `asyncio.gather`, whose results are in input
order (the i-th outcome belongs to the i-th URL).  `fetch_article` is
total, so no task raises and the gather always completes. -/
def webscraper_fanout (env : ParseEnv) (net : Str → NetResult) (urls : List Str) :
    Option (List Str) :=
  if urls = [] then none
  else some (urls.map (fun u => fetch_article env u (net u)))

/-- Model of `webscraper`: discovery followed by the fan-out. -/
def webscraper (env : ParseEnv) (net : Str → NetResult) (api : SearchApi) :
    Option (List Str) :=
  webscraper_fanout env net (get_news_urls api)

end Oprah

/-! ## webthinker.py: pipeline, bounded extraction, result cache -/

namespace WebThinker

/-- The FAISS fallback marker of `WebThinkerAgent.search`. -/
def noInfoMarker : Str := ("No relevant information found.").data

/-- The filtering step of `WebThinkerAgent.search`:
`[r for r in search_results if r is not None and r.strip() != ""]`
(the elements are the strings produced by `fetch_article`, which never
returns `None`, so only the strip test is discriminating). -/
def filterResults (l : List Str) : List Str :=
  l.filter (fun r => !(pyStrip r).isEmpty)

/-- Model of `FAISS.similarity_search` over the fresh per-call store: the
store holds exactly the texts added by `add_texts`; the embedding-driven
ranking is abstracted as a list of store indices chosen by the
environment, and the returned documents are the stored texts at those
indices (FAISS only ever returns stored documents). -/
def selectDocs (sel : List Nat) (store : List Str) : List Str :=
  sel.filterMap (fun i => store.get? i)

/-- External collaborators of `WebThinkerAgent.search` and their failure
modes: the network/search environment of `webscraper`, the
`get_vector_store` initialisation (its embedding-dimension probe re-raises
on failure), `add_texts` and the `NUMBER_OF_POINTS` lookup (either may
raise), the FAISS ranking (`sel`), the per-chunk extraction call
(total — `extract_information` catches its own exceptions and returns an
error string) and the summarization call (may raise). -/
structure AgentEnv where
  parseEnv : Oprah.ParseEnv
  net : Str → Oprah.NetResult
  api : Oprah.SearchApi
  vectorInit : Except Unit Unit
  addTexts : Except Unit Unit
  topk : Except Unit Nat
  sel : List Nat
  extract : Str → Str → Str
  summarize : Str → Str → Except Unit Str

/-- The `extracted_info` field of the result dictionary: a summary string
on success, the literal empty list `[]` in the degraded dictionary. -/
inductive Info where
  | text (s : Str)
  | emptyList
deriving DecidableEq

/-- The dictionary returned by `WebThinkerAgent.search`. -/
structure ResultDict where
  search_results : List Str
  extracted_info : Info
deriving DecidableEq

/-- Model of `gather_extracted_info`'s value: one `extract_information`
call per retrieved passage (gathered in input order), joined by blank
lines.  The 5-slot admission gate governs scheduling only, not the value;
it is modelled separately by `GatherExtract.Step`. -/
def gather_extracted_info (extract : Str → Str → Str) (question : Str)
    (final_results : List Str) : Str :=
  strJoin ("\n\n").data (final_results.map (extract question))

/-- The body of the `try:` block of `WebThinkerAgent.search`.  Iterating
over the `None` returned by `webscraper` on an empty URL list raises a
`TypeError`, modelled as `.error ()`. -/
def searchBody (env : AgentEnv) (question : Str) : Except Unit ResultDict := do
  let sr? := Oprah.webscraper env.parseEnv env.net env.api
  let search_results ← match sr? with
    | none => .error ()
    | some l => .ok (filterResults l)
  let _ ← env.vectorInit
  let _ ← (if search_results.isEmpty then .ok () else env.addTexts)
  let _ ← env.topk
  let final0 := selectDocs env.sel search_results
  let final_results := if final0.isEmpty then [noInfoMarker] else final0
  let total := gather_extracted_info env.extract question final_results
  let summary ← env.summarize question total
  .ok ⟨search_results, .text summary⟩

/-- The degraded dictionary returned by the `except` handler of
`WebThinkerAgent.search`: empty `search_results`, empty `extracted_info`. -/
def degraded : ResultDict := ⟨[], .emptyList⟩

/-- Model of `WebThinkerAgent.search`: the whole body runs under
`try: … except Exception: return degraded`, so the function is total. -/
def search (env : AgentEnv) (question : Str) : ResultDict :=
  match searchBody env question with
  | .ok r => r
  | .error _ => degraded

end WebThinker

/-! ## gather_extracted_info: the 5-slot admission gate

`gather_extracted_info` creates `asyncio.Semaphore(5)` and wraps every
`extract_information` call in `async with semaphore`.  We model the set of
extraction tasks as a state machine: each task is pending, running
(holding a slot) or done; `acquire` admits a pending task only when the
semaphore counter is positive, `finish` completes a running task and
releases its slot.
-/

namespace GatherExtract

inductive TStatus where
  | pending
  | running
  | done
deriving DecidableEq

/-- State of one `gather_extracted_info` run: the task statuses and the
semaphore's internal counter. -/
structure St where
  tasks : List TStatus
  avail : Nat
deriving DecidableEq

/-- Initial state: `n` pending extraction tasks, `asyncio.Semaphore(5)`. -/
def initSt (n : Nat) : St := ⟨List.replicate n .pending, 5⟩

/-- Number of extraction calls currently in flight. -/
def countRunning (ts : List TStatus) : Nat :=
  ts.countP (fun t => decide (t = .running))

/-- Interleaving semantics of the run: a pending task may start only when
the semaphore counter is positive (acquiring decrements it); a running
task may finish at any time (releasing increments it). -/
inductive Step : St → St → Prop where
  | acquire (ts : List TStatus) (avail : Nat) (i : Nat)
      (hp : ts.get? i = some .pending) (ha : 0 < avail) :
      Step ⟨ts, avail⟩ ⟨ts.set i .running, avail - 1⟩
  | finish (ts : List TStatus) (avail : Nat) (i : Nat)
      (hr : ts.get? i = some .running) :
      Step ⟨ts, avail⟩ ⟨ts.set i .done, avail + 1⟩

/-- Reachability from a given state through the step relation. -/
inductive Reachable (s0 : St) : St → Prop where
  | refl : Reachable s0 s0
  | step {s s' : St} : Reachable s0 s → Step s s' → Reachable s0 s'

end GatherExtract

/-! ## search_web and its alru_cache (the result cache)

`search_web(request, query)` is decorated with
`@alru_cache(ttl=literal_eval(getenv('TTL_CACHE')))`.  `async_lru` caches
by the tuple of arguments, so the cache key is the *(request, query)*
pair, not the query alone; entries are evicted `ttl` seconds after being
stored (a `loop.call_later` timer), and the default `maxsize` is 128 with
least-recently-used eviction.  Request objects are modelled by a numeric
identity (CPython hashes them by object identity).
-/

namespace SearchWeb

/-- Cache key: the `(request, query)` argument tuple of `search_web`. -/
abbrev CacheKey := Nat × Str

/-- Cache state: entries `(key, expiry instant)`, most recently used
first. -/
abbrev CacheSt := List (CacheKey × Nat)

/-- Look up a key. -/
def cacheFind (st : CacheSt) (key : CacheKey) : Option Nat :=
  match st with
  | [] => none
  | (k, e) :: rest => if k = key then some e else cacheFind rest key

/-- Remove a key (used when refreshing LRU order). -/
def cacheErase (st : CacheSt) (key : CacheKey) : CacheSt :=
  st.filter (fun e => !(decide (e.1 = key)))

/-- One call of the cached `search_web` at time `now` with request object
`req` and query `q`: expired entries (timer already fired) are absent; a
hit refreshes the LRU order and does not run the pipeline; a miss runs
the pipeline once and stores the entry with expiry `now + ttl`, evicting
the least recently used entry beyond `maxsize`.  Returns the new state
and whether the underlying pipeline was invoked. -/
def cacheStep (ttl maxsize : Nat) (st : CacheSt) (now : Nat) (req : Nat)
    (q : Str) : CacheSt × Bool :=
  let st := st.filter (fun e => decide (now < e.2))
  let key : CacheKey := (req, q)
  match cacheFind st key with
  | some e => (((key, e) :: cacheErase st key), false)
  | none => ((((key, now + ttl) :: st).take maxsize), true)

/-- Run a sequence of calls `(time, request, query)` from a cache state,
counting how many of them invoked the underlying pipeline. -/
def runCalls (ttl maxsize : Nat) : List (Nat × Nat × Str) → CacheSt → CacheSt × Nat
  | [], st => (st, 0)
  | (now, req, q) :: rest, st =>
    let (st2, computed) := cacheStep ttl maxsize st now req q
    let (stF, n) := runCalls ttl maxsize rest st2
    (stF, (if computed then 1 else 0) + n)

/-- Number of pipeline invocations over a call sequence against the
`search_web` cache (fresh cache, `alru_cache` default `maxsize=128`). -/
def search_web_computes (ttl : Nat) (calls : List (Nat × Nat × Str)) : Nat :=
  (runCalls ttl 128 calls []).2

end SearchWeb

/-! ## Theorems -/

set_option maxRecDepth 200000

/-- C2 counterexample: on the input `[Claim offer](https://bit.ly/abc)`
the source's `clean` (which strips general links *before* the betting
rule runs, leaving the visible text `Claim offer`) differs from the
spec-order composition (in which betting-promotion removal sees the
intact markdown link and deletes it, leaving the empty string). -/
theorem C2_spec_order_counterexample :
    MarkdownCleaner.clean ("[Claim offer](https://bit.ly/abc)").data ≠
      MarkdownCleaner.cleanSpecOrder ("[Claim offer](https://bit.ly/abc)").data := by
  decide

/-- C2 (amended): `MarkdownCleaner.clean` equals the sequential
composition of its rules in the order they appear in the source —
(a) line breaks, (b) date, (c) images, then logo removal (i) and general
link stripping (j), then (d) text formatting, (e) betting, (f) social,
(g) read-more, (h) footer, (k) bold, (l) headings, (m) whitespace. -/
theorem C2_clean_is_code_order_composition (text : Str) :
    MarkdownCleaner.clean text =
      MarkdownCleaner.clean_whitespace
        (MarkdownCleaner.fix_heading_structure
          (MarkdownCleaner.fix_bold_formatting
            (MarkdownCleaner.remove_footer_elements
              (MarkdownCleaner.remove_other_article_promotions
                (MarkdownCleaner.remove_social_media_promotions
                  (MarkdownCleaner.remove_betting_promotions
                    (MarkdownCleaner.fix_text_formatting
                      (MarkdownCleaner.remove_general_links
                        (MarkdownCleaner.remove_logos
                          (MarkdownCleaner.clean_image_references
                            (MarkdownCleaner.extract_article_date
                              (MarkdownCleaner.normalize_line_breaks text)))))))))))) :=
  rfl

/-- C6 counterexample: rule (j), `_remove_general_links`, is not
idempotent: on `[[a](b)](c)` one application yields `[a](c)` and a second
application collapses that to `a`. -/
theorem C6_link_strip_idempotence_counterexample :
    MarkdownCleaner.remove_general_links
        (MarkdownCleaner.remove_general_links ("[[a](b)](c)").data) ≠
      MarkdownCleaner.remove_general_links ("[[a](b)](c)").data := by
  decide

/-- C6 (amended): none of the rules (g) through (m) is idempotent applied
in isolation — each of the seven has an input `s` with `f (f s) ≠ f s`
(removing a pattern match can create a fresh match for (g), (h), (i) and
(j); `****` collapses further under (k); heading promotion re-matches its
own output under (l); and space-before-newline removal can create a fresh
3-newline run for (m)). -/
theorem C6_rules_g_to_m_not_idempotent :
    (∃ s, MarkdownCleaner.remove_other_article_promotions
        (MarkdownCleaner.remove_other_article_promotions s) ≠
      MarkdownCleaner.remove_other_article_promotions s) ∧
    (∃ s, MarkdownCleaner.remove_footer_elements
        (MarkdownCleaner.remove_footer_elements s) ≠
      MarkdownCleaner.remove_footer_elements s) ∧
    (∃ s, MarkdownCleaner.remove_logos (MarkdownCleaner.remove_logos s) ≠
      MarkdownCleaner.remove_logos s) ∧
    (∃ s, MarkdownCleaner.remove_general_links
        (MarkdownCleaner.remove_general_links s) ≠
      MarkdownCleaner.remove_general_links s) ∧
    (∃ s, MarkdownCleaner.fix_bold_formatting
        (MarkdownCleaner.fix_bold_formatting s) ≠
      MarkdownCleaner.fix_bold_formatting s) ∧
    (∃ s, MarkdownCleaner.fix_heading_structure
        (MarkdownCleaner.fix_heading_structure s) ≠
      MarkdownCleaner.fix_heading_structure s) ∧
    (∃ s, MarkdownCleaner.clean_whitespace
        (MarkdownCleaner.clean_whitespace s) ≠
      MarkdownCleaner.clean_whitespace s) :=
  ⟨⟨("[ALSO[ALSO READ:z](https://w) READ:x](https://y)").data, by decide⟩,
   ⟨("For more updates on Don\x27t\nforget to follow us onvisit our website").data,
     by decide⟩,
   ⟨("![![](y)](x)").data, by decide⟩,
   ⟨("[[a](b)](c)").data, by decide⟩,
   ⟨("******").data, by decide⟩,
   ⟨("A (B) vs C (D)").data, by decide⟩,
   ⟨("a\n \n \nb").data, by decide⟩⟩

/-- C1 counterexample: two `search_web` calls with the *same* query within
the TTL but carried by *distinct* request objects (ids 1 and 2) invoke the
underlying pipeline twice, because `alru_cache` keys on the full
`(request, query)` argument tuple — refuting "exactly once … regardless of
which inbound request object carries each call". -/
theorem C1_same_query_different_request_recomputes :
    SearchWeb.search_web_computes 100 [(0, 1, ("q").data), (1, 2, ("q").data)] = 2 ∧
    ¬ SearchWeb.search_web_computes 100 [(0, 1, ("q").data), (1, 2, ("q").data)] = 1 := by
  decide

/-- C1 (amended): the cache is keyed on the `(request, query)` pair.  Two
calls with the same request object and the same query within the TTL
invoke the pipeline exactly once; a call at or after TTL expiry invokes it
a second time; queries differing in any character (including case alone)
are independent entries; and calls carried by distinct request objects are
cached independently, computing once each. -/
theorem C1_cache_keyed_on_request_and_query (ttl : Nat) (req r1 r2 : Nat)
    (q q' : Str) (t1 t2 : Nat) :
    (t1 ≤ t2 → t2 < t1 + ttl →
      SearchWeb.search_web_computes ttl [(t1, req, q), (t2, req, q)] = 1) ∧
    (t1 + ttl ≤ t2 →
      SearchWeb.search_web_computes ttl [(t1, req, q), (t2, req, q)] = 2) ∧
    (q ≠ q' →
      SearchWeb.search_web_computes ttl [(t1, req, q), (t2, req, q')] = 2) ∧
    (r1 ≠ r2 →
      SearchWeb.search_web_computes ttl [(t1, r1, q), (t2, r2, q)] = 2) := by
  refine ⟨fun h1 h2 => ?_, fun h => ?_, fun h => ?_, fun h => ?_⟩
  all_goals
    simp only [SearchWeb.search_web_computes, SearchWeb.runCalls, SearchWeb.cacheStep,
      SearchWeb.cacheErase, List.filter, List.take]
  · simp [SearchWeb.cacheFind, h2]
  · simp [SearchWeb.cacheFind, Nat.not_lt.mpr h]
  · by_cases ht : t2 < t1 + ttl <;>
      simp [SearchWeb.cacheFind, ht, Prod.mk.injEq, h]
  · by_cases ht : t2 < t1 + ttl <;>
      simp [SearchWeb.cacheFind, ht, Prod.mk.injEq, h]

/-- Witness for C1: concrete instances of all four cache behaviours. -/
theorem C1_cache_keyed_on_request_and_query_witness :
    SearchWeb.search_web_computes 100 [(0, 1, ("a").data), (1, 1, ("a").data)] = 1 ∧
    SearchWeb.search_web_computes 100 [(0, 1, ("a").data), (100, 1, ("a").data)] = 2 ∧
    SearchWeb.search_web_computes 100 [(0, 1, ("a").data), (1, 1, ("A").data)] = 2 ∧
    SearchWeb.search_web_computes 100 [(0, 1, ("a").data), (1, 2, ("a").data)] = 2 :=
  ⟨(C1_cache_keyed_on_request_and_query 100 1 1 2 (("a").data) (("A").data) 0 1).1
      (by decide) (by decide),
   (C1_cache_keyed_on_request_and_query 100 1 1 2 (("a").data) (("A").data) 0 100).2.1
      (by decide),
   (C1_cache_keyed_on_request_and_query 100 1 1 2 (("a").data) (("A").data) 0 1).2.2.1
      (by decide),
   (C1_cache_keyed_on_request_and_query 100 1 1 2 (("a").data) (("A").data) 0 1).2.2.2
      (by decide)⟩

/-- Input refuting C3's "exactly 6" clause: six copies of one passing URL
followed by five further distinct passing URLs. -/
def c3urls : List (Option Str) :=
  [some ("https://a1.com/").data, some ("https://a1.com/").data,
   some ("https://a1.com/").data, some ("https://a1.com/").data,
   some ("https://a1.com/").data, some ("https://a1.com/").data,
   some ("https://b1.com/").data, some ("https://c1.com/").data,
   some ("https://d1.com/").data, some ("https://e1.com/").data,
   some ("https://f1.com/").data]

/-- C3 counterexample: at `c3urls` six distinct URLs pass the filters, yet
`get_news_urls` returns a single URL, because the source truncates to the
first 6 filtered entries *before* deduplicating (`[:6]` comes before
`list(set(urls))`), so the claim's "deduplicates … then truncates" and
"exactly 6 whenever at least 6 distinct URLs pass" are both false. -/
theorem C3_six_distinct_urls_but_fewer_returned :
    6 ≤ ((c3urls.filterMap id).filter Oprah.urlFilterOk).dedup.length ∧
    (Oprah.get_news_urls_filter c3urls).length = 1 ∧
    ¬ (Oprah.get_news_urls_filter c3urls).length = 6 := by
  decide

/-- C3 (amended): `get_news_urls` truncates the filtered list to 6 and
*then* deduplicates; for every result list the output has no duplicates,
every output URL starts with `https://`, none ends in `.pdf`
case-insensitively, none contains a blocklisted domain substring, and at
most 6 URLs are returned — but fewer than 6 may be returned even when at
least 6 distinct URLs pass the filters. -/
theorem C3_discover_output_filtered_deduped_capped (results : List (Option Str)) :
    (Oprah.get_news_urls_filter results).Nodup ∧
    (Oprah.get_news_urls_filter results).length ≤ 6 ∧
    ∀ u ∈ Oprah.get_news_urls_filter results,
      ("https://").data.isPrefixOf u = true ∧
      (".pdf").data.isSuffixOf (lowerStr u) = false ∧
      ∀ d ∈ Oprah.newsBlocklist, strContains u d = false := by
  refine ⟨List.nodup_dedup _, ?_, ?_⟩
  · exact le_trans (List.Sublist.length_le (List.dedup_sublist _)) (List.length_take_le _ _)
  · intro u hu
    have hu2 : u ∈ ((results.filterMap id).filter Oprah.urlFilterOk).take 6 :=
      List.mem_dedup.mp hu
    have hu3 : u ∈ (results.filterMap id).filter Oprah.urlFilterOk :=
      (List.take_sublist _ _).subset hu2
    have hok : Oprah.urlFilterOk u = true := (List.mem_filter.mp hu3).2
    simp only [Oprah.urlFilterOk, Bool.and_eq_true, Bool.not_eq_true',
      List.all_eq_true] at hok
    exact ⟨hok.1.1.1, hok.1.1.2, fun d hd => hok.1.2 d hd⟩

/-- Witness for C3: the amended theorem applied at a one-element result
list, its membership hypothesis discharged at the surviving URL. -/
theorem C3_discover_output_filtered_deduped_capped_witness :
    (Oprah.get_news_urls_filter [some (("https://a1.com/").data)]).Nodup ∧
    (Oprah.get_news_urls_filter [some (("https://a1.com/").data)]).length ≤ 6 ∧
    (("https://").data.isPrefixOf (("https://a1.com/").data) = true ∧
     (".pdf").data.isSuffixOf (lowerStr (("https://a1.com/").data)) = false ∧
     ∀ d ∈ Oprah.newsBlocklist, strContains (("https://a1.com/").data) d = false) := by
  have h := C3_discover_output_filtered_deduped_capped [some (("https://a1.com/").data)]
  exact ⟨h.1, h.2.1, h.2.2 (("https://a1.com/").data) (by decide)⟩

/-- C4: for every non-empty list of discovered URLs, the fan-out of
`webscraper` returns exactly one outcome per URL, the i-th outcome being
`fetch_article` applied to the i-th URL (the `asyncio.gather` result order
matches input order), for *every* network behaviour — including one where
every fetch fails — since `fetch_article` is total and never raises. -/
theorem C4_fanout_one_outcome_per_url_in_order (env : Oprah.ParseEnv)
    (net : Str → Oprah.NetResult) (urls : List Str) (hne : urls ≠ []) :
    ∃ rs, Oprah.webscraper_fanout env net urls = some rs ∧
      rs.length = urls.length ∧
      ∀ i (hi : i < urls.length),
        rs.get? i = some (Oprah.fetch_article env (urls.get ⟨i, hi⟩)
          (net (urls.get ⟨i, hi⟩))) := by
  refine ⟨urls.map (fun u => Oprah.fetch_article env u (net u)), ?_, by simp, ?_⟩
  · simp [Oprah.webscraper_fanout, hne]
  · intro i hi
    simp only [List.get?_eq_getElem?, List.getElem?_map, List.get_eq_getElem]
    rw [List.getElem?_eq_getElem hi]; rfl

/-- A `ParseEnv` whose external collaborators all fail (used by
witnesses). -/
def trivialParseEnv : Oprah.ParseEnv :=
  ⟨fun _ => .error (), fun _ => .error (), fun _ => .error ()⟩

/-- Witness for C4: a one-URL batch where the single fetch times out. -/
theorem C4_fanout_one_outcome_per_url_in_order_witness :
    ∃ rs, Oprah.webscraper_fanout trivialParseEnv (fun _ => .timeoutErr)
        [("https://a1.com/").data] = some rs ∧
      rs.length = [("https://a1.com/").data].length ∧
      ∀ i (hi : i < [("https://a1.com/").data].length),
        rs.get? i = some (Oprah.fetch_article trivialParseEnv
          ([("https://a1.com/").data].get ⟨i, hi⟩)
          ((fun _ => Oprah.NetResult.timeoutErr)
            ([("https://a1.com/").data].get ⟨i, hi⟩))) :=
  C4_fanout_one_outcome_per_url_in_order trivialParseEnv (fun _ => .timeoutErr)
    [("https://a1.com/").data] (by decide)

/-- C5: `fetch_article` is total (it never raises) and its result is
exactly one of the six shapes: the fetch-failed marker carrying the
non-200 status, the parse-failed marker when extraction yields no usable
text (`None` or empty), the cleaned text with the trailing
`Source: <url>` attribution on success, or the timeout / client-error /
unhandled-error markers for the three exception classes. -/
theorem C5_fetch_article_returns_exactly_one_outcome (env : Oprah.ParseEnv)
    (url : Str) (net : Oprah.NetResult) :
    (∃ status html, net = .response status html ∧ status ≠ 200 ∧
      Oprah.fetch_article env url net = Oprah.fetchFailedMarker status url) ∨
    (∃ html, net = .response 200 html ∧
      (Oprah.parse_html_content env html = none ∨
       Oprah.parse_html_content env html = some []) ∧
      Oprah.fetch_article env url net = Oprah.parseFailedMarker url) ∨
    (∃ html p, net = .response 200 html ∧
      Oprah.parse_html_content env html = some p ∧ p ≠ [] ∧
      Oprah.fetch_article env url net = Oprah.sourceAttributed p url) ∨
    (net = .timeoutErr ∧ Oprah.fetch_article env url net = Oprah.timeoutMarker url) ∨
    (net = .clientErr ∧ Oprah.fetch_article env url net = Oprah.clientErrorMarker url) ∨
    (net = .otherErr ∧
      Oprah.fetch_article env url net = Oprah.unhandledErrorMarker url) := by
  cases net with
  | response status html =>
    by_cases hs : status = 200
    · subst hs
      cases hp : Oprah.parse_html_content env html with
      | none =>
        exact Or.inr (Or.inl ⟨html, rfl, Or.inl hp, by simp [Oprah.fetch_article, hp]⟩)
      | some p =>
        by_cases hp0 : p = []
        · subst hp0
          exact Or.inr (Or.inl ⟨html, rfl, Or.inr hp, by simp [Oprah.fetch_article, hp]⟩)
        · exact Or.inr (Or.inr (Or.inl ⟨html, p, rfl, hp, hp0,
            by simp [Oprah.fetch_article, hp, hp0]⟩))
    · exact Or.inl ⟨status, html, rfl, hs, by simp [Oprah.fetch_article, hs]⟩
  | timeoutErr => exact Or.inr (Or.inr (Or.inr (Or.inl ⟨rfl, rfl⟩)))
  | clientErr => exact Or.inr (Or.inr (Or.inr (Or.inr (Or.inl ⟨rfl, rfl⟩))))
  | otherErr => exact Or.inr (Or.inr (Or.inr (Or.inr (Or.inr ⟨rfl, rfl⟩))))

/-- C7: `WebThinkerAgent.search` never propagates a failure to its caller:
whatever the environment does, the result is the body's dictionary when
the body succeeds, and the degraded dictionary (empty `search_results`,
empty `extracted_info`) when any stage of the body raises.  Totality of
`search` itself models "never propagates an exception". -/
theorem C7_search_total_and_degrades_on_failure (env : WebThinker.AgentEnv)
    (q : Str) :
    (∀ d, WebThinker.searchBody env q = .ok d → WebThinker.search env q = d) ∧
    (WebThinker.searchBody env q = .error () →
      WebThinker.search env q = WebThinker.degraded) := by
  constructor
  · intro d h; simp [WebThinker.search, h]
  · intro h; simp [WebThinker.search, h]

/-- An environment whose discovery fails (search service non-200), used by
witnesses. -/
def envFail : WebThinker.AgentEnv :=
  ⟨trivialParseEnv, fun _ => .timeoutErr, .fail, .ok (), .ok (), .ok 3, [0],
   fun _ s => s, fun _ s => .ok s⟩

/-- An environment where one URL is discovered and its fetch times out,
and all model services succeed, used by witnesses. -/
def envOk : WebThinker.AgentEnv :=
  ⟨trivialParseEnv, fun _ => .timeoutErr, .ok [some (("https://a1.com/").data)],
   .ok (), .ok (), .ok 3, [0], fun _ s => s, fun _ s => .ok s⟩

/-- Witness for C7: a failing run degrades, a successful run returns the
body's dictionary. -/
theorem C7_search_total_and_degrades_on_failure_witness :
    WebThinker.search envFail (("q").data) = WebThinker.degraded ∧
    WebThinker.search envOk (("q").data) =
      ⟨[Oprah.timeoutMarker (("https://a1.com/").data)],
       .text (Oprah.timeoutMarker (("https://a1.com/").data))⟩ :=
  ⟨(C7_search_total_and_degrades_on_failure envFail (("q").data)).2 rfl,
   (C7_search_total_and_degrades_on_failure envOk (("q").data)).1 _ rfl⟩

namespace GatherExtract

/-- Setting index `i` (currently holding `b`) to `a` changes the running
count by the difference of the two indicator values. -/
theorem countRunning_set (ts : List TStatus) (i : Nat) (a b : TStatus)
    (h : ts.get? i = some b) :
    countRunning (ts.set i a) + (if b = .running then 1 else 0)
      = countRunning ts + (if a = .running then 1 else 0) := by
  induction ts generalizing i with
  | nil => simp at h
  | cons t rest ih =>
    cases i with
    | zero =>
      simp only [List.get?_eq_getElem?, List.getElem?_cons_zero, Option.some.injEq] at h
      subst h
      simp only [List.set_cons_zero, countRunning, List.countP_cons, decide_eq_true_eq]
      by_cases ha : a = .running <;> by_cases ht : t = .running <;>
        simp [ha, ht]
    | succ j =>
      simp only [List.get?_eq_getElem?, List.getElem?_cons_succ] at h
      have := ih j (by simpa using h)
      simp only [List.set_cons_succ, countRunning, List.countP_cons] at this ⊢
      omega

/-- Initially no extraction call is running. -/
theorem countRunning_replicate_pending (n : Nat) :
    countRunning (List.replicate n .pending) = 0 := by
  induction n with
  | zero => rfl
  | succ m ih => simp [List.replicate_succ, countRunning, List.countP_cons] at ih ⊢

/-- The semaphore invariant: slots held plus the counter equals 5. -/
def Inv (s : St) : Prop := countRunning s.tasks + s.avail = 5

theorem inv_step {s s' : St} (hi : Inv s) (hs : Step s s') : Inv s' := by
  cases hs with
  | acquire ts avail i hp ha =>
    have := countRunning_set ts i .running .pending hp
    simp only [Inv] at hi ⊢
    simp at this
    omega
  | finish ts avail i hr =>
    have := countRunning_set ts i .done .running hr
    simp only [Inv] at hi ⊢
    simp at this
    omega

theorem inv_reachable {n : Nat} {s : St} (h : Reachable (initSt n) s) : Inv s := by
  induction h with
  | refl => simp [Inv, initSt, countRunning_replicate_pending]
  | step _ hstep ih => exact inv_step ih hstep

end GatherExtract

/-- C8: in every state reachable during a `gather_extracted_info` run, at
most 5 extraction calls are in flight; and from a state with 5 in flight
the only possible transitions complete one of them (an `acquire` of a 6th
is impossible while the counter is 0), so a 6th call is admitted only
after one of the 5 finishes. -/
theorem C8_extraction_concurrency_capped_at_five (n : Nat)
    (s : GatherExtract.St)
    (h : GatherExtract.Reachable (GatherExtract.initSt n) s) :
    GatherExtract.countRunning s.tasks ≤ 5 ∧
    (GatherExtract.countRunning s.tasks = 5 →
      ∀ s', GatherExtract.Step s s' → GatherExtract.countRunning s'.tasks = 4) := by
  have hi := GatherExtract.inv_reachable h
  constructor
  · simp only [GatherExtract.Inv] at hi; omega
  · intro h5 s' hs
    cases hs with
    | acquire ts avail i hp ha =>
      simp only [GatherExtract.Inv] at hi
      simp at h5 hi
      omega
    | finish ts avail i hr =>
      have := GatherExtract.countRunning_set ts i .done .running hr
      simp at this h5
      simp
      omega

/-- A state with all 5 slots held, reachable from 6 pending tasks. -/
def fiveRunning : GatherExtract.St :=
  ⟨[.running, .running, .running, .running, .running, .pending], 0⟩

/-- Witness for C8: after five admissions the cap is met, and the finish
step of task 0 brings the in-flight count to 4. -/
theorem C8_extraction_concurrency_capped_at_five_witness :
    GatherExtract.countRunning fiveRunning.tasks ≤ 5 ∧
    GatherExtract.countRunning (fiveRunning.tasks.set 0 .done) = 4 := by
  have r0 : GatherExtract.Reachable (GatherExtract.initSt 6) (GatherExtract.initSt 6) :=
    .refl
  have r1 := r0.step (GatherExtract.Step.acquire _ _ 0 (by decide) (by decide))
  have r2 := r1.step (GatherExtract.Step.acquire _ _ 1 (by decide) (by decide))
  have r3 := r2.step (GatherExtract.Step.acquire _ _ 2 (by decide) (by decide))
  have r4 := r3.step (GatherExtract.Step.acquire _ _ 3 (by decide) (by decide))
  have r5 := r4.step (GatherExtract.Step.acquire _ _ 4 (by decide) (by decide))
  have hreach : GatherExtract.Reachable (GatherExtract.initSt 6) fiveRunning := r5
  have h := C8_extraction_concurrency_capped_at_five 6 fiveRunning hreach
  exact ⟨h.1, h.2 (by decide) _ (GatherExtract.Step.finish _ _ 0 (by decide))⟩

/-- Any string starting with a non-whitespace character survives Python's
`strip`. -/
theorem pyStrip_ne_nil_of_head (c : Char) (s : Str) (hc : ¬ isSpaceChar c = true) :
    pyStrip (c :: s) ≠ [] := by
  intro h
  simp only [pyStrip, List.reverse_eq_nil_iff, List.dropWhile_eq_nil_iff] at h
  have hd : List.dropWhile isSpaceChar (c :: s) = c :: s := by
    simp [List.dropWhile_cons, hc]
  rw [hd] at h
  exact hc (h c (by simp))

/-- C9: every fetch-failure sentinel string is non-empty and
non-whitespace (each begins with `[`), so it passes the pre-indexing
filter of `WebThinkerAgent.search` — any such marker present in the
webscraper output is among the texts handed to `add_texts` — and the
similarity search can return it among the top-k passages (choosing its
index returns exactly that stored document). -/
theorem C9_failure_markers_survive_filter_and_indexing (url : Str)
    (status : Nat) (l : List Str) (m : Str) (sr : List Str) (i : Nat) :
    pyStrip (Oprah.timeoutMarker url) ≠ [] ∧
    pyStrip (Oprah.clientErrorMarker url) ≠ [] ∧
    pyStrip (Oprah.unhandledErrorMarker url) ≠ [] ∧
    pyStrip (Oprah.parseFailedMarker url) ≠ [] ∧
    pyStrip (Oprah.fetchFailedMarker status url) ≠ [] ∧
    (m ∈ l → pyStrip m ≠ [] → m ∈ WebThinker.filterResults l) ∧
    (sr.get? i = some m → WebThinker.selectDocs [i] sr = [m]) := by
  refine ⟨?_, ?_, ?_, ?_, ?_, ?_, ?_⟩
  · exact pyStrip_ne_nil_of_head '[' _ (by decide)
  · exact pyStrip_ne_nil_of_head '[' _ (by decide)
  · exact pyStrip_ne_nil_of_head '[' _ (by decide)
  · exact pyStrip_ne_nil_of_head '[' _ (by decide)
  · exact pyStrip_ne_nil_of_head '[' _ (by decide)
  · intro hm hs
    simp only [WebThinker.filterResults, List.mem_filter]
    exact ⟨hm, by simpa [List.isEmpty_iff] using hs⟩
  · intro h
    rw [List.get?_eq_getElem?] at h
    simp [WebThinker.selectDocs, List.filterMap, h]

/-- Witness for C9: the timeout marker of a concrete URL passes the filter
and is returned by the similarity search when its index is selected. -/
theorem C9_failure_markers_survive_filter_and_indexing_witness :
    pyStrip (Oprah.timeoutMarker (("https://a1.com/").data)) ≠ [] ∧
    Oprah.timeoutMarker (("https://a1.com/").data) ∈
      WebThinker.filterResults [Oprah.timeoutMarker (("https://a1.com/").data)] ∧
    WebThinker.selectDocs [0] [Oprah.timeoutMarker (("https://a1.com/").data)] =
      [Oprah.timeoutMarker (("https://a1.com/").data)] := by
  have h := C9_failure_markers_survive_filter_and_indexing
    (("https://a1.com/").data) 404
    [Oprah.timeoutMarker (("https://a1.com/").data)]
    (Oprah.timeoutMarker (("https://a1.com/").data))
    [Oprah.timeoutMarker (("https://a1.com/").data)] 0
  exact ⟨h.1, h.2.2.2.2.2.1 (by decide) (by decide), h.2.2.2.2.2.2 (by decide)⟩

/-- C10: when URL discovery yields no URLs, `webscraper` returns `None`
(not an empty list); the filtering comprehension in
`WebThinkerAgent.search` then iterates over `None` and raises `TypeError`,
which the method's exception handler converts into the degraded result
with empty `search_results` and empty `extracted_info` — no error reaches
the caller. -/
theorem C10_empty_discovery_yields_degraded_result (env : WebThinker.AgentEnv)
    (q : Str) (h : Oprah.get_news_urls env.api = []) :
    Oprah.webscraper env.parseEnv env.net env.api = none ∧
    WebThinker.searchBody env q = .error () ∧
    WebThinker.search env q = WebThinker.degraded := by
  have hw : Oprah.webscraper env.parseEnv env.net env.api = none := by
    simp [Oprah.webscraper, h, Oprah.webscraper_fanout]
  have hb : WebThinker.searchBody env q = .error () := by
    simp only [WebThinker.searchBody, hw]
    rfl
  exact ⟨hw, hb, by simp [WebThinker.search, hb]⟩

/-- Witness for C10: the zero-URL environment (search service failure)
yields `None` from `webscraper` and the degraded result from `search`. -/
theorem C10_empty_discovery_yields_degraded_result_witness :
    Oprah.webscraper envFail.parseEnv envFail.net envFail.api = none ∧
    WebThinker.searchBody envFail (("q").data) = .error () ∧
    WebThinker.search envFail (("q").data) = WebThinker.degraded :=
  C10_empty_discovery_yields_degraded_result envFail (("q").data) rfl
